import Mathlib

/-!
Shallow embedding of `src/template_loader.py` (class `TemplateLoader`):
multi-language notification template lookup with fallback to a canonical
language, per-language document caching, and best-effort message formatting.

Modelling choices:
* A JSON template entry is an association list `String × String`
  (field name ↦ field value); a per-language document maps template keys to
  entries; the cache maps language codes to loaded documents.
* Storage (the templates directory) is a function from language code to
  `Option (Except Unit TemplateDoc)`: `none` models a missing
  `<lang>.json` file (Python `FileNotFoundError`), `some (.error ())` a file
  that exists but is not valid JSON (`json.JSONDecodeError`), and
  `some (.ok d)` a file that parses to document `d`.
* Python exceptions become explicit error values threaded through `Except`;
  the mutable `self._cache` becomes explicit state passing.
-/

namespace TemplateLoader

/-- A JSON object entry for one template key: field name ↦ string value. -/
abbrev TemplateEntry := List (String × String)

/-- A per-language template document: template key ↦ entry. -/
abbrev TemplateDoc := List (String × TemplateEntry)

/-- The loader's cache `self._cache`: language code ↦ loaded document. -/
abbrev TemplateCache := List (String × TemplateDoc)

/-- Python `d[k]` / `k in d` on a string-keyed dict, as association-list
lookup (first binding wins, matching insert-on-miss discipline). -/
def lookupA {α : Type} : List (String × α) → String → Option α
  | [], _ => none
  | (k, v) :: rest, key => if key = k then some v else lookupA rest key

/-- The templates directory: what `<lang>.json` holds for each language. -/
structure Storage where
  file : String → Option (Except Unit TemplateDoc)

/-- `TemplateLoader.SUPPORTED_LANGUAGES`. -/
def SUPPORTED_LANGUAGES : List String := ["en", "ko", "ja", "zh"]

/-- `TemplateLoader.FALLBACK_LANGUAGE`. -/
def FALLBACK_LANGUAGE : String := "en"

/-- The two exceptions `_load_template_file` can raise. -/
inductive LoadError where
  | fileNotFound
  | jsonDecodeError
deriving DecidableEq, Repr

/-- `TemplateLoader._load_template_file`: read and parse `<language>.json`,
raising `FileNotFoundError` when missing and `json.JSONDecodeError` when
unparseable. -/
def load_template_file (storage : Storage) (language : String) :
    Except LoadError TemplateDoc :=
  match storage.file language with
  | none => .error .fileNotFound
  | some (.error _) => .error .jsonDecodeError
  | some (.ok doc) => .ok doc

/-- The exceptions `get_template` can raise: `ValueError` for an unsupported
language, a propagated load failure for the fallback language, `KeyError` for
a key missing even in the fallback language, and `ValueError` for an entry
missing `title` or `message`. -/
inductive TplError where
  | unsupportedLang (language : String)
  | loadFailed (e : LoadError)
  | keyNotFound (key : String)
  | invalidStructure (key : String)
deriving DecidableEq, Repr

/-- `TemplateLoader.get_available_languages`: iterate the supported codes in
order, keeping those whose `<lang>.json` file exists. -/
def get_available_languages_loop (storage : Storage) :
    List String → List String → List String
  | [], available => available
  | lang :: rest, available =>
    if (storage.file lang).isSome then
      get_available_languages_loop storage rest (available ++ [lang])
    else
      get_available_languages_loop storage rest available

/-- `TemplateLoader.get_available_languages`. -/
def get_available_languages (storage : Storage) : List String :=
  get_available_languages_loop storage SUPPORTED_LANGUAGES []

/-- `TemplateLoader.get_template`: resolve `(key, language)` with fallback
toward `FALLBACK_LANGUAGE`, returning the updated cache together with the
entry or the raised error. Recursive exactly as the source is; every
recursive call passes `FALLBACK_LANGUAGE`, so the measure
`if language = FALLBACK_LANGUAGE then 0 else 1` decreases. -/
def get_template (storage : Storage) (cache : TemplateCache)
    (key language : String) : TemplateCache × Except TplError TemplateEntry :=
  if language ∈ SUPPORTED_LANGUAGES then
    -- Load template (with caching)
    match (match lookupA cache language with
           | some doc => (cache, Except.ok doc)
           | none =>
             match load_template_file storage language with
             | .ok doc => ((language, doc) :: cache, Except.ok doc)
             | .error e => (cache, Except.error e)) with
    | (cache', .error e) =>
      -- Fallback to English if load fails
      if language ≠ FALLBACK_LANGUAGE then
        get_template storage cache' key FALLBACK_LANGUAGE
      else
        (cache', .error (.loadFailed e))
    | (cache', .ok templates) =>
      match lookupA templates key with
      | none =>
        -- Fallback to English if key does not exist
        if language ≠ FALLBACK_LANGUAGE then
          get_template storage cache' key FALLBACK_LANGUAGE
        else
          (cache', .error (.keyNotFound key))
      | some template =>
        -- Validate template structure
        if lookupA template "title" = none ∨ lookupA template "message" = none then
          (cache', .error (.invalidStructure key))
        else
          (cache', .ok template)
  else
    -- Try to fallback to English
    if language ≠ FALLBACK_LANGUAGE then
      get_template storage cache key FALLBACK_LANGUAGE
    else
      (cache, .error (.unsupportedLang language))
termination_by (if language = FALLBACK_LANGUAGE then 0 else 1)
decreasing_by
  · simp [FALLBACK_LANGUAGE] at *; simp_all
  · simp [FALLBACK_LANGUAGE] at *; simp_all
  · simp [FALLBACK_LANGUAGE] at *; simp_all

/-- `TemplateLoader.clear_cache`: `self._cache.clear()`. -/
def clear_cache (_cache : TemplateCache) : TemplateCache := []

deriving instance DecidableEq for Except

/-- Outcome of one pass of the `get_template` body: either a final answer, or
the decision to retry with the fallback language. -/
inductive StepOut where
  | done (r : Except TplError TemplateEntry)
  | fallback
deriving DecidableEq, Repr

/-- One pass of the `get_template` body, with each recursive call replaced by
the `fallback` marker. -/
def get_template_step (storage : Storage) (cache : TemplateCache)
    (key language : String) : TemplateCache × StepOut :=
  if language ∈ SUPPORTED_LANGUAGES then
    match (match lookupA cache language with
           | some doc => (cache, Except.ok doc)
           | none =>
             match load_template_file storage language with
             | .ok doc => ((language, doc) :: cache, Except.ok doc)
             | .error e => (cache, Except.error e)) with
    | (cache', .error e) =>
      if language ≠ FALLBACK_LANGUAGE then
        (cache', .fallback)
      else
        (cache', .done (.error (.loadFailed e)))
    | (cache', .ok templates) =>
      match lookupA templates key with
      | none =>
        if language ≠ FALLBACK_LANGUAGE then
          (cache', .fallback)
        else
          (cache', .done (.error (.keyNotFound key)))
      | some template =>
        if lookupA template "title" = none ∨ lookupA template "message" = none then
          (cache', .done (.error (.invalidStructure key)))
        else
          (cache', .done (.ok template))
  else
    if language ≠ FALLBACK_LANGUAGE then
      (cache, .fallback)
    else
      (cache, .done (.error (.unsupportedLang language)))

/-- The iterative two-step reading of `get_template`: one pass at the
requested language, then (at most) one pass at the fallback language. The
final `fallback` arm is unreachable (see `claim_C9`). -/
def get_template_two_step (storage : Storage) (cache : TemplateCache)
    (key language : String) : TemplateCache × Except TplError TemplateEntry :=
  match get_template_step storage cache key language with
  | (cache', .done r) => (cache', r)
  | (cache', .fallback) =>
    match get_template_step storage cache' key FALLBACK_LANGUAGE with
    | (cache'', .done r) => (cache'', r)
    | (cache'', .fallback) =>
      (cache'', .error (.unsupportedLang FALLBACK_LANGUAGE))

/-- The document `get_template` would consult for `language`: the cached copy
when present, otherwise the result of a successful load from storage
(`none` when the language is uncached and its load fails). -/
def doc_in_effect (storage : Storage) (cache : TemplateCache)
    (language : String) : Option TemplateDoc :=
  match lookupA cache language with
  | some d => some d
  | none =>
    match load_template_file storage language with
    | .ok d => some d
    | .error _ => none

/-- The exceptions Python `str.format` can raise on the modelled fragment. -/
inductive FormatError where
  | keyError
  | indexError
  | valueError
deriving DecidableEq, Repr

/-- Scanner state for the `str.format` model. -/
inductive FmtState where
  | text
  | sawLBrace
  | sawRBrace
  | inField (acc : List Char)
deriving DecidableEq, Repr

/-- CPython `str.format(**kwargs)` on the fragment the templates use: literal
text, `\x7b\x7b` and `\x7d\x7d` escapes, and simple replacement fields
(no conversion, format spec, attribute or index access). An empty or
all-digit field name selects a positional argument; `format(**kwargs)`
passes none, so it raises `IndexError`. A named field missing from `kwargs`
raises `KeyError`; a lone brace or a brace inside a field name raises
`ValueError`. -/
def py_format_scan (subs : List (String × String)) :
    List Char → FmtState → Except FormatError (List Char)
  | [], .text => .ok []
  | [], .sawLBrace => .error .valueError
  | [], .sawRBrace => .error .valueError
  | [], .inField _ => .error .valueError
  | c :: cs, .text =>
    if c = '{' then py_format_scan subs cs .sawLBrace
    else if c = '}' then py_format_scan subs cs .sawRBrace
    else (fun t => c :: t) <$> py_format_scan subs cs .text
  | c :: cs, .sawLBrace =>
    if c = '{' then (fun t => '{' :: t) <$> py_format_scan subs cs .text
    else if c = '}' then .error .indexError
    else py_format_scan subs cs (.inField [c])
  | c :: cs, .sawRBrace =>
    if c = '}' then (fun t => '}' :: t) <$> py_format_scan subs cs .text
    else .error .valueError
  | c :: cs, .inField acc =>
    if c = '}' then
      if acc.all Char.isDigit then .error .indexError
      else
        match lookupA subs (String.mk acc) with
        | none => .error .keyError
        | some v => (fun t => v.data ++ t) <$> py_format_scan subs cs .text
    else if c = '{' then .error .valueError
    else py_format_scan subs cs (.inField (acc ++ [c]))

/-- `message.format(**kwargs)` on the modelled fragment. -/
def py_format (subs : List (String × String)) (s : String) :
    Except FormatError String :=
  match py_format_scan subs s.data .text with
  | .ok cs => .ok (String.mk cs)
  | .error e => .error e

/-- The dictionary `get_notification_data` returns. -/
structure NotificationData where
  title : String
  message : String
deriving DecidableEq, Repr

/-- The exceptions `get_notification_data` can surface: anything raised by
`get_template`, a `KeyError` from `template["title"]` / `template["message"]`
(unreachable after validation), and an `IndexError` escaping
`message.format(**kwargs)` — the `except (KeyError, ValueError)` clause does
not catch `IndexError`. -/
inductive NotifError where
  | tpl (e : TplError)
  | fieldMissing (field : String)
  | formatIndexError
deriving DecidableEq, Repr

/-- `TemplateLoader.get_notification_data`: resolve the template, then, when
`kwargs` is non-empty, try `message.format(**kwargs)`, recovering the
original message on `KeyError` or `ValueError` only. -/
def get_notification_data (storage : Storage) (cache : TemplateCache)
    (key language : String) (kwargs : List (String × String)) :
    TemplateCache × Except NotifError NotificationData :=
  match get_template storage cache key language with
  | (cache', .error e) => (cache', .error (.tpl e))
  | (cache', .ok template) =>
    match lookupA template "title" with
    | none => (cache', .error (.fieldMissing "title"))
    | some title =>
      match lookupA template "message" with
      | none => (cache', .error (.fieldMissing "message"))
      | some message =>
        if kwargs = [] then
          (cache', .ok ⟨title, message⟩)
        else
          match py_format kwargs message with
          | .ok formatted => (cache', .ok ⟨title, formatted⟩)
          | .error .keyError => (cache', .ok ⟨title, message⟩)
          | .error .valueError => (cache', .ok ⟨title, message⟩)
          | .error .indexError => (cache', .error .formatIndexError)

/-! Sample data used by witness theorems. -/

/-- A canonical-language document with a well-formed entry and an entry
missing its `message` field. -/
def docEn : TemplateDoc :=
  [("tool_completed", [("title", "Done"), ("message", "Task {name} finished")]),
   ("only_en", [("title", "OnlyEn"), ("message", "English only")]),
   ("broken", [("title", "Oops")])]

/-- A Korean document carrying only `tool_completed`. -/
def docKo : TemplateDoc :=
  [("tool_completed", [("title", "KoDone"), ("message", "KoTask {name} done")])]

/-- A replacement canonical document, used to model an on-disk edit. -/
def docEn2 : TemplateDoc :=
  [("tool_completed", [("title", "Done2"), ("message", "Task finished again")])]

/-- A canonical document whose entry's message holds a positional
replacement field. -/
def docFmt : TemplateDoc :=
  [("positional", [("title", "Done"), ("message", "Task {0} finished")])]

/-- Storage with `en.json` and `ko.json` present and parseable. -/
def storageEnKo : Storage :=
  ⟨fun l => if l = "en" then some (.ok docEn)
            else if l = "ko" then some (.ok docKo) else none⟩

/-- Storage with only `en.json` present. -/
def storageEnOnly : Storage :=
  ⟨fun l => if l = "en" then some (.ok docEn) else none⟩

/-- Storage whose `en.json` holds the replacement document. -/
def storageEn2 : Storage :=
  ⟨fun l => if l = "en" then some (.ok docEn2) else none⟩

/-- Storage whose `en.json` holds the positional-placeholder document. -/
def storageFmt : Storage :=
  ⟨fun l => if l = "en" then some (.ok docFmt) else none⟩

/-! Shared lemmas about `get_template`. -/

lemma fallback_mem : FALLBACK_LANGUAGE ∈ SUPPORTED_LANGUAGES := by decide

/-- At the fallback language, `get_template` is one pass of the body: the
step function's answer, with the (unreachable) `fallback` arm mapped to the
`ValueError` the source would raise. -/
lemma gt_en_eq (storage : Storage) (cache : TemplateCache) (key : String) :
    get_template storage cache key FALLBACK_LANGUAGE =
      match get_template_step storage cache key FALLBACK_LANGUAGE with
      | (c, .done r) => (c, r)
      | (c, .fallback) => (c, .error (.unsupportedLang FALLBACK_LANGUAGE)) := by
  rw [get_template.eq_def]
  unfold get_template_step
  simp only [fallback_mem, if_true, ite_true, ne_eq, not_true_eq_false,
    if_false, ite_false]
  split
  · rfl
  · split
    · rfl
    · split <;> rfl

/-- At the fallback language the step never asks for another fallback. -/
lemma step_en_done (storage : Storage) (cache : TemplateCache) (key : String) :
    ∃ c r, get_template_step storage cache key FALLBACK_LANGUAGE =
      (c, StepOut.done r) := by
  unfold get_template_step
  simp only [fallback_mem, if_true, ite_true, ne_eq, not_true_eq_false,
    if_false, ite_false]
  split
  · exact ⟨_, _, rfl⟩
  · split
    · exact ⟨_, _, rfl⟩
    · split
      · exact ⟨_, _, rfl⟩
      · exact ⟨_, _, rfl⟩

/-- The recursive `get_template` equals the iterative two-step lookup. -/
lemma gt_eq_two_step (storage : Storage) (cache : TemplateCache)
    (key language : String) :
    get_template storage cache key language =
      get_template_two_step storage cache key language := by
  by_cases hf : language = FALLBACK_LANGUAGE
  · subst hf
    unfold get_template_two_step
    rw [gt_en_eq]
    split
    · rfl
    · rename_i heq
      obtain ⟨c, r, h⟩ := step_en_done storage cache key
      rw [h] at heq
      simp at heq
  · rw [get_template.eq_def]
    unfold get_template_two_step get_template_step
    by_cases hs : language ∈ SUPPORTED_LANGUAGES <;>
      simp only [hs, if_true, ite_true, if_false, ite_false, ne_eq, hf,
        not_false_eq_true]
    · split
      · exact gt_en_eq storage _ key
      · split
        · exact gt_en_eq storage _ key
        · split <;> rfl
    · exact gt_en_eq storage cache key

/-- Successful resolution on a cache miss: supported language, loadable
document, key present, entry well-formed. -/
lemma gt_success (storage : Storage) (cache : TemplateCache)
    (key language : String) (doc : TemplateDoc) (entry : TemplateEntry)
    (hsup : language ∈ SUPPORTED_LANGUAGES)
    (hcache : lookupA cache language = none)
    (hfile : storage.file language = some (.ok doc))
    (hkey : lookupA doc key = some entry)
    (ht : lookupA entry "title" ≠ none)
    (hm : lookupA entry "message" ≠ none) :
    get_template storage cache key language =
      ((language, doc) :: cache, .ok entry) := by
  rw [get_template.eq_def]
  simp only [hsup, if_true, ite_true]
  simp [hcache, load_template_file, hfile, hkey, ht, hm]

/-- Inversion: the step answers `KeyError k` only at the fallback language,
only for the requested key, and only when the document in effect lacks it. -/
lemma step_keyNotFound_inv (storage : Storage) (cache : TemplateCache)
    (key language : String) (c : TemplateCache) (k : String)
    (h : get_template_step storage cache key language =
      (c, .done (.error (.keyNotFound k)))) :
    k = key ∧ language = FALLBACK_LANGUAGE ∧
      ∃ d, doc_in_effect storage cache language = some d ∧
        lookupA d key = none := by
  unfold get_template_step at h
  by_cases hs : language ∈ SUPPORTED_LANGUAGES
  · simp only [hs, if_true, ite_true] at h
    rcases hc : lookupA cache language with _ | d <;> simp only [hc] at h
    · rcases hl : load_template_file storage language with e | d <;>
        simp only [hl] at h
      · by_cases hf : language = FALLBACK_LANGUAGE <;> simp [hf] at h
      · rcases hk : lookupA d key with _ | t <;> simp only [hk] at h
        · by_cases hf : language = FALLBACK_LANGUAGE <;> simp [hf] at h
          exact ⟨h.2.symm, hf, d, by simp [doc_in_effect, hc, hl], hk⟩
        · split at h <;> simp at h
    · rcases hk : lookupA d key with _ | t <;> simp only [hk] at h
      · by_cases hf : language = FALLBACK_LANGUAGE <;> simp [hf] at h
        exact ⟨h.2.symm, hf, d, by simp [doc_in_effect, hc], hk⟩
      · split at h <;> simp at h
  · simp only [hs, if_false, ite_false] at h
    by_cases hf : language = FALLBACK_LANGUAGE <;> simp [hf] at h

/-- Inversion: a `fallback` outcome happens only away from the fallback
language, and touches the cache at most by inserting that language. -/
lemma step_fallback_inv (storage : Storage) (cache : TemplateCache)
    (key language : String) (c : TemplateCache)
    (h : get_template_step storage cache key language = (c, .fallback)) :
    language ≠ FALLBACK_LANGUAGE ∧
      (c = cache ∨ ∃ d, c = (language, d) :: cache) := by
  unfold get_template_step at h
  by_cases hf : language = FALLBACK_LANGUAGE
  · by_cases hs : language ∈ SUPPORTED_LANGUAGES <;>
      simp only [hs, if_true, ite_true, if_false, ite_false] at h
    · rcases hc : lookupA cache language with _ | d <;> simp only [hc] at h
      · rcases hl : load_template_file storage language with e | d <;>
          simp only [hl] at h
        · simp [hf] at h
        · rcases hk : lookupA d key with _ | t <;> simp only [hk] at h
          · simp [hf] at h
          · split at h <;> simp at h
      · rcases hk : lookupA d key with _ | t <;> simp only [hk] at h
        · simp [hf] at h
        · split at h <;> simp at h
    · simp [hf] at h
  · refine ⟨hf, ?_⟩
    by_cases hs : language ∈ SUPPORTED_LANGUAGES <;>
      simp only [hs, if_true, ite_true, if_false, ite_false] at h
    · rcases hc : lookupA cache language with _ | d <;> simp only [hc] at h
      · rcases hl : load_template_file storage language with e | d <;>
          simp only [hl] at h
        · simp [hf] at h
          exact Or.inl h.symm
        · rcases hk : lookupA d key with _ | t <;> simp only [hk] at h
          · simp [hf] at h
            exact Or.inr ⟨d, h.symm⟩
          · split at h <;> simp at h
      · rcases hk : lookupA d key with _ | t <;> simp only [hk] at h
        · simp [hf] at h
          exact Or.inl h.symm
        · split at h <;> simp at h
    · simp [hf] at h
      exact Or.inl h.symm

/-- The step leaves the cache alone or inserts the requested language. -/
lemma step_cache_shape (storage : Storage) (cache : TemplateCache)
    (key language : String) :
    (get_template_step storage cache key language).1 = cache ∨
      ∃ d, (get_template_step storage cache key language).1 =
        (language, d) :: cache := by
  unfold get_template_step
  by_cases hs : language ∈ SUPPORTED_LANGUAGES <;>
    simp only [hs, if_true, ite_true, if_false, ite_false]
  · rcases hc : lookupA cache language with _ | d <;> simp only [hc]
    · rcases hl : load_template_file storage language with e | d <;>
        simp only [hl]
      · split <;> simp
      · rcases hk : lookupA d key with _ | t <;> simp only [hk]
        · split <;> simp
        · split <;> simp
    · rcases hk : lookupA d key with _ | t <;> simp only [hk]
      · split <;> simp
      · split <;> simp
  · split <;> simp

/-- At the fallback language, `get_template` leaves the cache alone or
inserts the fallback language's document. -/
lemma gt_en_cache_shape (storage : Storage) (cache : TemplateCache)
    (key : String) :
    (get_template storage cache key FALLBACK_LANGUAGE).1 = cache ∨
      ∃ d, (get_template storage cache key FALLBACK_LANGUAGE).1 =
        (FALLBACK_LANGUAGE, d) :: cache := by
  rw [gt_en_eq]
  obtain ⟨c, r, hs⟩ := step_en_done storage cache key
  have := step_cache_shape storage cache key FALLBACK_LANGUAGE
  rw [hs] at this ⊢
  simpa using this

/-- Caching a non-fallback language does not change which document is in
effect for the fallback language. -/
lemma doc_in_effect_cons_ne (storage : Storage) (cache : TemplateCache)
    (l : String) (d : TemplateDoc) (h : l ≠ FALLBACK_LANGUAGE) :
    doc_in_effect storage ((l, d) :: cache) FALLBACK_LANGUAGE =
      doc_in_effect storage cache FALLBACK_LANGUAGE := by
  have hne : ¬(FALLBACK_LANGUAGE = l) := fun he => h he.symm
  unfold doc_in_effect
  simp [lookupA, hne]

/-- The availability loop accumulates exactly the filter of the remaining
codes by file existence. -/
lemma gal_loop_eq (storage : Storage) (langs acc : List String) :
    get_available_languages_loop storage langs acc =
      acc ++ langs.filter (fun l => (storage.file l).isSome) := by
  induction langs generalizing acc with
  | nil => simp [get_available_languages_loop]
  | cons l ls ih =>
    unfold get_available_languages_loop
    by_cases h : (storage.file l).isSome <;>
      simp [h, ih, List.filter_cons]

/-! Claim theorems. -/

/-- C1: for every supported language `L` and key `K` such that `L`'s
on-disk document contains `K` with an entry having both `title` and
`message` fields, `get_template K L` on a fresh loader returns exactly that
entry unchanged — the cache records only `L`'s own document, so no fallback
was taken and no field was altered. -/
theorem claim_C1 (storage : Storage) (key language : String)
    (doc : TemplateDoc) (entry : TemplateEntry)
    (hsup : language ∈ SUPPORTED_LANGUAGES)
    (hfile : storage.file language = some (.ok doc))
    (hkey : lookupA doc key = some entry)
    (ht : (lookupA entry "title").isSome)
    (hm : (lookupA entry "message").isSome) :
    get_template storage [] key language = ([(language, doc)], .ok entry) :=
  gt_success storage [] key language doc entry hsup rfl hfile hkey
    (Option.isSome_iff_ne_none.mp ht) (Option.isSome_iff_ne_none.mp hm)

theorem claim_C1_witness :
    get_template storageEnKo [] "tool_completed" "ko" =
      ([("ko", docKo)],
       .ok [("title", "KoDone"), ("message", "KoTask {name} done")]) :=
  claim_C1 storageEnKo "tool_completed" "ko" docKo
    [("title", "KoDone"), ("message", "KoTask {name} done")]
    (by decide) (by decide) (by decide) (by decide) (by decide)

/-- C2: the claim that `get_notification_data` never lets a formatting error
escape is falsified by the code: `message.format(**kwargs)` on a message
holding a positional replacement field raises `IndexError`, and the
source's `except (KeyError, ValueError)` clause does not catch it, so the
error surfaces instead of the unformatted template being returned. The
theorem evaluates the embedding at the failing input. -/
theorem claim_C2 :
    get_notification_data storageFmt [] "positional" "en" [("name", "build")] =
      ([("en", docFmt)], .error .formatIndexError) := by
  unfold get_notification_data
  rw [gt_success storageFmt [] "positional" "en" docFmt
    [("title", "Done"), ("message", "Task {0} finished")]
    (by decide) rfl (by decide) (by decide) (by decide) (by decide)]
  rfl

/-- C3: a key present with a well-formed entry in the canonical language's
document but absent from a non-canonical supported language's document
resolves, for that language, to the canonical entry. -/
theorem claim_C3 (storage : Storage) (key language : String)
    (docL docF : TemplateDoc) (entry : TemplateEntry)
    (hsup : language ∈ SUPPORTED_LANGUAGES)
    (hne : language ≠ FALLBACK_LANGUAGE)
    (hfileL : storage.file language = some (.ok docL))
    (hkeyL : lookupA docL key = none)
    (hfileF : storage.file FALLBACK_LANGUAGE = some (.ok docF))
    (hkeyF : lookupA docF key = some entry)
    (ht : (lookupA entry "title").isSome)
    (hm : (lookupA entry "message").isSome) :
    get_template storage [] key language =
      ([(FALLBACK_LANGUAGE, docF), (language, docL)], .ok entry) := by
  rw [get_template.eq_def]
  simp only [hsup, if_true, ite_true,
    show lookupA ([] : TemplateCache) language = none from rfl,
    load_template_file, hfileL, hkeyL, ne_eq, hne, not_false_eq_true,
    ite_true]
  have hcache : lookupA [(language, docL)] FALLBACK_LANGUAGE = none := by
    have : ¬(FALLBACK_LANGUAGE = language) := fun he => hne he.symm
    simp [lookupA, this]
  exact gt_success storage [(language, docL)] key FALLBACK_LANGUAGE docF entry
    fallback_mem hcache hfileF hkeyF
    (Option.isSome_iff_ne_none.mp ht) (Option.isSome_iff_ne_none.mp hm)

theorem claim_C3_witness :
    get_template storageEnKo [] "only_en" "ko" =
      ([(FALLBACK_LANGUAGE, docEn), ("ko", docKo)],
       .ok [("title", "OnlyEn"), ("message", "English only")]) :=
  claim_C3 storageEnKo "only_en" "ko" docKo docEn
    [("title", "OnlyEn"), ("message", "English only")]
    (by decide) (by decide) (by decide) (by decide) (by decide) (by decide)
    (by decide) (by decide)

/-- C4: for any language outside the supported set, `get_template` is the
very same computation as `get_template` at the canonical language — same
result, same cache, same error if any. -/
theorem claim_C4 (storage : Storage) (cache : TemplateCache)
    (key language : String) (h : language ∉ SUPPORTED_LANGUAGES) :
    get_template storage cache key language =
      get_template storage cache key FALLBACK_LANGUAGE := by
  have hf : language ≠ FALLBACK_LANGUAGE := fun he => h (he ▸ fallback_mem)
  rw [get_template.eq_def]
  simp [h, hf]

theorem claim_C4_witness :
    get_template storageEnOnly [] "tool_completed" "fr" =
      get_template storageEnOnly [] "tool_completed" FALLBACK_LANGUAGE :=
  claim_C4 storageEnOnly [] "tool_completed" "fr" (by decide)

/-- C5: at the canonical language, a key absent from the document in effect
fails with `KeyError` for exactly that key; conversely, whenever any
resolution ends in `KeyError`, the canonical document in effect exists and
lacks the requested key — the only condition producing that error. -/
theorem claim_C5 (storage : Storage) (cache : TemplateCache) (key : String) :
    (∀ d, doc_in_effect storage cache FALLBACK_LANGUAGE = some d →
        lookupA d key = none →
        (get_template storage cache key FALLBACK_LANGUAGE).2 =
          .error (.keyNotFound key)) ∧
    (∀ language c k,
        get_template storage cache key language =
          (c, .error (.keyNotFound k)) →
        k = key ∧ ∃ d,
          doc_in_effect storage cache FALLBACK_LANGUAGE = some d ∧
            lookupA d key = none) := by
  constructor
  · intro d hd hk
    rw [gt_en_eq]
    unfold doc_in_effect at hd
    unfold get_template_step
    simp only [fallback_mem, if_true, ite_true, ne_eq, not_true_eq_false,
      if_false, ite_false]
    rcases hc : lookupA cache FALLBACK_LANGUAGE with _ | d0 <;>
      simp only [hc] at hd ⊢
    · rcases hl : load_template_file storage FALLBACK_LANGUAGE with e | d0 <;>
        simp only [hl] at hd ⊢
      · exact absurd hd (by simp)
      · cases hd
        simp [hk]
    · cases hd
      simp [hk]
  · intro language c k h
    rw [gt_eq_two_step] at h
    unfold get_template_two_step at h
    rcases hstep : get_template_step storage cache key language with ⟨c1, s1⟩
    rw [hstep] at h
    cases s1 with
    | done r =>
      simp at h
      rw [h.2] at hstep
      obtain ⟨hk, hfb, d, hd, hkd⟩ :=
        step_keyNotFound_inv storage cache key language c1 k hstep
      rw [hfb] at hd
      exact ⟨hk, d, hd, hkd⟩
    | fallback =>
      obtain ⟨hne, hshape⟩ :=
        step_fallback_inv storage cache key language c1 hstep
      dsimp only at h
      rcases hstep2 : get_template_step storage c1 key FALLBACK_LANGUAGE
        with ⟨c2, s2⟩
      rw [hstep2] at h
      cases s2 with
      | done r =>
        simp at h
        rw [h.2] at hstep2
        obtain ⟨hk, _, d, hd, hkd⟩ :=
          step_keyNotFound_inv storage c1 key FALLBACK_LANGUAGE c2 k hstep2
        refine ⟨hk, d, ?_, hkd⟩
        rcases hshape with rfl | ⟨d0, rfl⟩
        · exact hd
        · rw [doc_in_effect_cons_ne storage cache language d0 hne] at hd
          exact hd
      | fallback =>
        obtain ⟨c3, r3, h3⟩ := step_en_done storage c1 key
        rw [h3] at hstep2
        simp at hstep2

theorem claim_C5_witness :
    (get_template storageEnOnly [] "missing" "en").2 =
      .error (.keyNotFound "missing") ∧
    ("missing" = "missing" ∧ ∃ d,
      doc_in_effect storageEnOnly [] FALLBACK_LANGUAGE = some d ∧
        lookupA d "missing" = none) := by
  constructor
  · exact (claim_C5 storageEnOnly [] "missing").1 docEn (by decide) (by decide)
  · refine (claim_C5 storageEnOnly [] "missing").2 "ko" [("en", docEn)]
      "missing" ?_
    simp [get_template, storageEnOnly, docEn, lookupA, load_template_file,
      SUPPORTED_LANGUAGES, FALLBACK_LANGUAGE]

/-- C6: when the document in effect for a supported language holds the key
but the entry lacks `title` or `message`, resolution fails with the
`ValueError` for an invalid template structure — no fallback masks it. -/
theorem claim_C6 (storage : Storage) (cache : TemplateCache)
    (key language : String) (d : TemplateDoc) (entry : TemplateEntry)
    (hsup : language ∈ SUPPORTED_LANGUAGES)
    (hd : doc_in_effect storage cache language = some d)
    (hk : lookupA d key = some entry)
    (hbad : lookupA entry "title" = none ∨ lookupA entry "message" = none) :
    (get_template storage cache key language).2 =
      .error (.invalidStructure key) := by
  rw [get_template.eq_def]
  simp only [hsup, if_true, ite_true]
  unfold doc_in_effect at hd
  rcases hc : lookupA cache language with _ | d0 <;> simp only [hc] at hd ⊢
  · rcases hl : load_template_file storage language with e | d0 <;>
      simp only [hl] at hd ⊢
    · exact absurd hd (by simp)
    · cases hd
      simp [hk, hbad]
  · cases hd
    simp [hk, hbad]

theorem claim_C6_witness :
    (get_template storageEnOnly [] "broken" "en").2 =
      .error (.invalidStructure "broken") :=
  claim_C6 storageEnOnly [] "broken" "en" docEn [("title", "Oops")]
    (by decide) (by decide) (by decide) (by decide)

/-- C7: `get_available_languages` returns exactly the supported codes whose
backing file exists, in the fixed supported order, and it is determined by
file existence alone. -/
theorem claim_C7 (storage : Storage) :
    get_available_languages storage =
      SUPPORTED_LANGUAGES.filter (fun l => (storage.file l).isSome) ∧
    ∀ l, l ∈ get_available_languages storage ↔
      (l ∈ SUPPORTED_LANGUAGES ∧ (storage.file l).isSome) := by
  have h := gal_loop_eq storage SUPPORTED_LANGUAGES []
  constructor
  · simpa [get_available_languages] using h
  · intro l
    rw [get_available_languages, h]
    simp [List.mem_filter]

/-- C8: `clear_cache` empties the cache, and a resolution right after it
loads the language's document from current storage — so an on-disk change
made while a stale copy was cached is reflected in the result. -/
theorem claim_C8 (cache : TemplateCache) :
    clear_cache cache = [] ∧
    ∀ (storage : Storage) (key language : String) (doc : TemplateDoc)
      (entry : TemplateEntry),
      language ∈ SUPPORTED_LANGUAGES →
      storage.file language = some (.ok doc) →
      lookupA doc key = some entry →
      (lookupA entry "title").isSome →
      (lookupA entry "message").isSome →
      get_template storage (clear_cache cache) key language =
        ([(language, doc)], .ok entry) := by
  refine ⟨rfl, ?_⟩
  intro storage key language doc entry hsup hfile hkey ht hm
  exact gt_success storage [] key language doc entry hsup rfl hfile hkey
    (Option.isSome_iff_ne_none.mp ht) (Option.isSome_iff_ne_none.mp hm)

theorem claim_C8_witness :
    clear_cache [("en", docEn)] = [] ∧
    get_template storageEn2 (clear_cache [("en", docEn)]) "tool_completed"
        "en" =
      ([("en", docEn2)],
       .ok [("title", "Done2"), ("message", "Task finished again")]) :=
  ⟨(claim_C8 [("en", docEn)]).1,
   (claim_C8 [("en", docEn)]).2 storageEn2 "tool_completed" "en" docEn2
     [("title", "Done2"), ("message", "Task finished again")]
     (by decide) (by decide) (by decide) (by decide) (by decide)⟩

/-- C9: `get_template` terminates on every input with fallback depth at most
one: it equals the iterative two-step lookup, and at the canonical language
the single pass always settles (never asks for a further fallback). -/
theorem claim_C9 (storage : Storage) (cache : TemplateCache)
    (key language : String) :
    get_template storage cache key language =
      get_template_two_step storage cache key language ∧
    ∃ c r, get_template_step storage cache key FALLBACK_LANGUAGE =
      (c, StepOut.done r) :=
  ⟨gt_eq_two_step storage cache key language, step_en_done storage cache key⟩

/-- C10: when a non-canonical supported language's document fails to load on
a cache miss, the resulting cache still has no entry for that language, so
a later call re-attempts the load from storage. -/
theorem claim_C10 (storage : Storage) (cache : TemplateCache)
    (key language : String) (e : LoadError)
    (hsup : language ∈ SUPPORTED_LANGUAGES)
    (hne : language ≠ FALLBACK_LANGUAGE)
    (hcache : lookupA cache language = none)
    (hload : load_template_file storage language = .error e) :
    lookupA (get_template storage cache key language).1 language = none := by
  rw [get_template.eq_def]
  simp only [hsup, if_true, ite_true, hcache, hload, ne_eq, hne,
    not_false_eq_true, ite_true]
  rcases gt_en_cache_shape storage cache key with h | ⟨d, h⟩ <;> rw [h]
  · exact hcache
  · simp [lookupA, hne, hcache]

theorem claim_C10_witness :
    lookupA (get_template storageEnOnly [] "tool_completed" "ko").1 "ko" =
      none :=
  claim_C10 storageEnOnly [] "tool_completed" "ko" .fileNotFound
    (by decide) (by decide) (by decide) (by decide)

end TemplateLoader
